import Mathlib

/-!
Shallow embedding of the two Netskope integration plugins
(Crowdstrike CTE indicator pull, Forescout IoT asset pull):
HTTP client wrappers, authenticator, configuration validators,
paginators and record normalizers, with theorems settling the
specification claims about them.
-/

/-! Constants from src/forescout_iot/utils/forescout_constants.py. -/

def MAX_RETRIES : Nat := 3

def RETRY_BACKOFF : Nat := 1

def DEFAULT_LOOKBACK_MINS : Nat := 60

/-- An HTTP response as observed by the Forescout helper: its status code and
the result of attempting to parse its body as JSON (`none` when the body is
not valid JSON, in which case `response.json()` raises `ValueError`). -/
structure FSResponse (β : Type) where
  status : Nat
  json : Option β
deriving DecidableEq

/-- Outcome of `ForescoutPluginHelper.api_helper`
(src/forescout_iot/utils/forescout_helper.py, lines 99-139): parsed JSON body,
the raw response envelope, a raised `requests.exceptions.HTTPError` carrying
the response's status code (both the 429-exhausted raise at line 117 and the
`handle_error` raise at line 159 use this exception type), or Python's
implicit `None` return if the `for` loop were to fall through. -/
inductive FSOutcome (β : Type) where
  | okJson : β → FSOutcome β
  | okRaw : FSResponse β → FSOutcome β
  | httpError : Nat → FSOutcome β
  | implicitNone : FSOutcome β
deriving DecidableEq

/-- The retry loop of `ForescoutPluginHelper.api_helper` (lines 101-130):
`for retry in range(MAX_RETRIES)` issues one request per iteration
(`responses retry` is the response the server gives to the attempt with
index `retry`).  On a 429: if this was the last allowed attempt, raise
`HTTPError`; otherwise sleep `RETRY_BACKOFF * 2 ** retry` (recorded in
`sleeps`) and continue.  Otherwise `handle_error` raises for non-2xx when
`is_handle_error_required`, a 200/201 body is parsed as JSON with the raw
response returned on a `ValueError`, and any remaining response is returned
as-is (line 130). -/
def fsApiHelperGo (responses : Nat → FSResponse β)
    (is_handle_error_required : Bool) :
    List Nat → List Nat → FSOutcome β × List Nat
  | [], sleeps => (.implicitNone, sleeps)
  | retry :: rest, sleeps =>
    let response := responses retry
    if response.status = 429 then
      if retry = MAX_RETRIES - 1 then
        (.httpError 429, sleeps)
      else
        fsApiHelperGo responses is_handle_error_required rest
          (sleeps ++ [RETRY_BACKOFF * 2 ^ retry])
    else if is_handle_error_required
        && !(response.status == 200 || response.status == 201) then
      (.httpError response.status, sleeps)
    else if response.status = 200 ∨ response.status = 201 then
      match response.json with
      | some j => (.okJson j, sleeps)
      | none => (.okRaw response, sleeps)
    else
      (.okRaw response, sleeps)

/-- `ForescoutPluginHelper.api_helper`: run the retry loop over
`range(MAX_RETRIES)` starting with no sleeps performed.  The second component
of the result is the list of backoff sleeps (in seconds) performed, in
order. -/
def fsApiHelper (responses : Nat → FSResponse β)
    (is_handle_error_required : Bool) : FSOutcome β × List Nat :=
  fsApiHelperGo responses is_handle_error_required (List.range MAX_RETRIES) []

/-- An HTTP response as observed by the Crowdstrike helper: status code,
JSON parse result of the body (`none` when not valid JSON) and the raw body
text (`response.text`). -/
structure CSResponse (β : Type) where
  status : Nat
  json : Option β
  text : String
deriving DecidableEq

/-- `CrowdstrikePluginException` raised by
`CrowdstrikePluginHelper.api_helper` (src/Crowdstrike_cte/utils/helper.py,
lines 50-63): `apiError` is the non-2xx path (line 56); `requestError` is the
wrapping of the exception raised by `response.json()` on an invalid JSON body
(lines 58-63). -/
inductive CSErr where
  | apiError (status : Nat) (text : String)
  | requestError (text : String)
deriving DecidableEq

/-- `CrowdstrikePluginHelper.api_helper` (lines 21-63): no retry loop at all.
A 200/201 body is parsed and returned; a parse failure raises (wrapped into a
`CrowdstrikePluginException`); any other status raises an API error. -/
def csApiHelper (response : CSResponse β) : Except CSErr β :=
  if response.status = 200 ∨ response.status = 201 then
    match response.json with
    | some j => .ok j
    | none => .error (.requestError response.text)
  else
    .error (.apiError response.status response.text)

/-- The token endpoint's response as observed by
`CrowdstrikePluginHelper.get_auth_token`: status code, the parsed JSON body's
`access_token` field (outer `none`: the body is not valid JSON; inner
`Option`: `dict.get` of the possibly missing field) and the raw text. -/
structure CSTokenResponse where
  status : Nat
  json : Option (Option String)
  text : String
deriving DecidableEq

/-- `CrowdstrikePluginException` raised by `get_auth_token` (helper.py lines
65-82): `authFailed` models the non-2xx raise at line 80 ("Auth Failed:
{text}", rewrapped "Auth Exception: ..." by line 82); `jsonError` models an
invalid JSON body making `response.json()` raise, also rewrapped at line
82. -/
inductive CSAuthErr where
  | authFailed (text : String)
  | jsonError (text : String)
deriving DecidableEq

/-- `CrowdstrikePluginHelper.get_auth_token` (lines 65-82): on 200/201 return
`response.json().get("access_token")` — which is `none` when the field is
missing, returned as a normal (successful) value; on any other status, or on
an unparseable body, raise a `CrowdstrikePluginException`. -/
def get_auth_token (response : CSTokenResponse) :
    Except CSAuthErr (Option String) :=
  if response.status = 200 ∨ response.status = 201 then
    match response.json with
    | some fields => .ok fields
    | none => .error (.jsonError response.text)
  else
    .error (.authFailed response.text)

/-- `ValidationResult` as used by both plugins' `validate`. -/
structure ValidationResult where
  success : Bool
  message : String
deriving DecidableEq

/-- Crowdstrike plugin configuration fields read by `validate` and `pull`
(absent keys behave as empty strings through Python truthiness). -/
structure CSConfig where
  base_url : String
  client_id : String
  client_secret : String
deriving DecidableEq

/-- Python `str.strip()`: remove leading and trailing whitespace. -/
def pyStrip (s : String) : String :=
  (((s.data.dropWhile Char.isWhitespace).reverse.dropWhile
      Char.isWhitespace).reverse).asString

/-- Python `str.rstrip("/")`: remove trailing slash characters. -/
def rstripSlashes (s : String) : String :=
  ((s.data.reverse.dropWhile (fun c => c = '/')).reverse).asString

/-- The presence check of `CrowdstrikePlugin.validate`
(src/Crowdstrike_cte/main.py line 145): `not base_url or not client_id or
not client_secret`, with `base_url` first stripped and slash-trimmed. -/
def csMissingFields (configuration : CSConfig) : Bool :=
  (rstripSlashes (pyStrip configuration.base_url)).isEmpty
    || configuration.client_id.isEmpty
    || configuration.client_secret.isEmpty

/-- `CrowdstrikePlugin.validate` (main.py lines 138-156).  `probe` is the
outcome of the `get_auth_token` call: `.error e` models the call raising an
exception with message `e` (caught at line 154 and converted into a failure
result), `.ok tok` models it returning, with `tok` the possibly missing
access token.  The second component records whether the probe was invoked at
all: presence failures return before any network call. -/
def crowdstrikeValidate (configuration : CSConfig)
    (probe : Except String (Option String)) : ValidationResult × Bool :=
  if csMissingFields configuration then
    ({ success := false, message := "Missing required fields." }, false)
  else
    match probe with
    | .ok (some t) =>
      if t.isEmpty then
        ({ success := false, message := "Validation Failed." }, true)
      else
        ({ success := true, message := "Validation Successful." }, true)
    | .ok none => ({ success := false, message := "Validation Failed." }, true)
    | .error e => ({ success := false, message := e }, true)

/-- Forescout plugin configuration fields read by `validate`. -/
structure FSConfig where
  base_url : String
  api_token : String
deriving DecidableEq

/-- `ForescoutPlugin.validate` (src/forescout_iot/main.py lines 185-196):
presence checks on `base_url` and `api_token` only — the function performs no
network call and no authentication probe; any configuration passing the
presence checks is reported as valid. -/
def forescoutValidate (configuration : FSConfig) : ValidationResult :=
  if (pyStrip configuration.base_url).isEmpty then
    { success := false, message := "Base URL is required." }
  else if (pyStrip configuration.api_token).isEmpty then
    { success := false, message := "API Token is required." }
  else
    { success := true, message := "Validation successful." }

/-! Crowdstrike indicator pull (src/Crowdstrike_cte/main.py lines 41-127). -/

/-- The ID-batching of `CrowdstrikePlugin.pull` (main.py lines 66-69):
`for i in range(0, len(ioc_ids), batch_size)` with `batch_size = 100`, each
iteration taking the slice `ioc_ids[i:i + 100]`.  `List.range' 0 n 100` is
the list `[0, 100, 200, ...]` of length `n = ceil(len/100)`, mirroring
Python's `range(0, len, 100)`. -/
def csIdBatches (ioc_ids : List α) : List (List α) :=
  (List.range' 0 ((ioc_ids.length + 99) / 100) 100).map
    (fun i => (ioc_ids.drop i).take 100)

/-- Query parameters of one detail call (main.py line 77):
`[('ids', x) for x in batch_ids]` — the batch as repeated `ids` query
parameters, in order. -/
def csDetailParams (batch_ids : List String) : List (String × String) :=
  batch_ids.map (fun x => ("ids", x))

/-- The sequence of detail calls issued by `pull`, one per batch, each
carrying its batch's query parameters; the early return at lines 61-62 makes
no detail call when the ID list is empty. -/
def csDetailCalls (ioc_ids : List String) : List (List (String × String)) :=
  if ioc_ids.isEmpty then []
  else (csIdBatches ioc_ids).map csDetailParams

/-- `netskope.integrations.cte.models.IndicatorType` values used by the
plugin. -/
inductive IndicatorType where
  | SHA256
  | MD5
  | URL
deriving DecidableEq

/-- A raw indicator record from the entities endpoint, with the fields read
by `pull` (each `item.get(...)`, hence optional). -/
structure RawIndicator where
  value : Option String
  type : Option String
  description : Option String
  created_on : Option String
  modified_on : Option String
deriving DecidableEq

/-- The `Indicator` constructed at main.py lines 111-117. -/
structure Indicator where
  value : String
  type : IndicatorType
  comments : String
  firstSeen : Option String
  lastSeen : Option String
deriving DecidableEq

/-- Python truthiness of an optional string: `None` and the empty string are
falsy. -/
def pyTruthy (s : Option String) : Bool :=
  match s with
  | some t => !t.isEmpty
  | none => false

/-- The `if/elif` classification chain of main.py lines 89-103. -/
def classifyIndicatorType (itype : Option String) : Option IndicatorType :=
  match itype with
  | none => none
  | some t =>
    if t = "sha256" then some .SHA256
    else if t = "md5" then some .MD5
    else if t = "domain" then some .URL
    else if t = "ipv4" then some .URL
    else if t = "ipv6" then some .URL
    else none

/-- Normalization of one raw indicator record (main.py lines 82-117):
classify the `type` code; emit an `Indicator` only when both the classified
type and the `value` are truthy (`if indicator_type and value`), with
`comments` defaulting to "Crowdstrike IOC".  Records failing the guard emit
nothing; the surrounding `try/except` means a per-record failure never aborts
the page. -/
def normalizeIndicator (item : RawIndicator) : Option Indicator :=
  let indicator_type := classifyIndicatorType item.type
  match indicator_type, item.value with
  | some t, some v =>
    if v.isEmpty then none
    else
      some { value := v, type := t,
             comments := item.description.getD "Crowdstrike IOC",
             firstSeen := item.created_on, lastSeen := item.modified_on }
  | _, _ => none

/-- The indicators appended for one page of entity resources (main.py lines
82-120): each record contributes its normalized indicator, bad records are
skipped. -/
def csNormalizePage (resources : List RawIndicator) : List Indicator :=
  resources.filterMap normalizeIndicator

/-! Forescout asset pull (src/forescout_iot/main.py lines 69-183). -/

/-- A raw asset record from the rem-assets endpoint, with the fields read by
`pull` (optional fields are `item.get(...)`; `risk_score` is checked for key
presence, so it is modelled as an `Option` regardless of value). -/
structure RawAsset where
  ip_addresses : List String
  mac_addresses : List String
  rem_category : Option String
  rem_vendor : Option String
  rem_os : Option String
  rem_function : Option String
  risk_score : Option Int
deriving DecidableEq

/-- The `netskope.integrations.iot.models.asset.Asset` fields touched by the
plugin.  `hostname` is part of the platform's asset model but is never set by
this plugin. -/
structure Asset where
  ip : Option String
  mac_address : Option String
  tags : List String
  use_asset : Bool
  os : Option String
  manufacturer : Option String
  category : Option String
  hostname : Option String
deriving DecidableEq

/-- Attribute set only when the raw value is truthy (main.py lines 144-151):
`if item.get(...): asset.attr = item.get(...)`; otherwise the attribute stays
unset. -/
def truthyAttr (v : Option String) : Option String :=
  match v with
  | some s => if s.isEmpty then none else some s
  | none => none

/-- Normalization of one raw asset record (main.py lines 120-153):
`ip_address`/`mac_address` are the first list elements (or `None` for an
empty list); an `Asset` is built only when `ip_address or mac_address` is
truthy; tags collect the truthy `rem_function` and the present `risk_score`;
`os`/`manufacturer`/`category` are attached only when truthy.  A dropped
record produces nothing — and, notably, no log call occurs on the drop
path. -/
def normalizeAsset (item : RawAsset) : Option Asset :=
  let ip_address := item.ip_addresses.head?
  let mac_address := item.mac_addresses.head?
  if pyTruthy ip_address || pyTruthy mac_address then
    let asset_tags :=
      (match item.rem_function with
       | some f => if f.isEmpty then [] else ["Function: " ++ f]
       | none => []) ++
      (match item.risk_score with
       | some r => ["Risk Score: " ++ toString r]
       | none => [])
    some { ip := ip_address, mac_address := mac_address, tags := asset_tags,
           use_asset := true, os := truthyAttr item.rem_os,
           manufacturer := truthyAttr item.rem_vendor,
           category := truthyAttr item.rem_category, hostname := none }
  else
    none

/-- The JSON payload of one rem-assets page request (main.py lines 90-95);
`selected_fields` is the constant `REM_ASSET_FIELDS` and is omitted from the
model. -/
structure FSPayload where
  from_utc_millis : Int
  to_utc_millis : Int
  page_number : Nat
deriving DecidableEq

/-- One tuple yielded by `ForescoutPlugin.pull` (main.py line 163):
`(assets, page_number == 0, False, len(assets), 0)`. -/
structure FSBatchYield where
  assets : List Asset
  is_first_page : Bool
  is_last_page : Bool
  count : Nat
  total_count : Nat
deriving DecidableEq

/-- The logger calls made inside the `pull` loop, each carrying exactly the
dynamic data interpolated into its message.  None of them carries a raw
record: the drop path of the normalization loop contains no logger call. -/
inductive FSLog where
  | fetchingPage (p : Nat)
  | unexpectedFormat
  | noMoreResults (p : Nat)
  | fetchedAssets (n : Nat) (p : Nat)
  | maxPageWarning
deriving DecidableEq

/-- The value `api_helper` hands back for one page request: a JSON dict
(whose `results` key holds the record list, defaulting to `[]`) or a
non-dict value (the raw-response fallback), which `pull` logs as an
unexpected format and treats as no results (main.py lines 109-113). -/
inductive FSPageResponse where
  | dict (results : List RawAsset)
  | other
deriving DecidableEq

/-- The `results` list `pull` extracts from a page response. -/
def resultsOf (r : FSPageResponse) : List RawAsset :=
  match r with
  | .dict rs => rs
  | .other => []

/-- The error log emitted when the response is not a dict. -/
def fsFmtLogs (r : FSPageResponse) : List FSLog :=
  match r with
  | .dict _ => []
  | .other => [.unexpectedFormat]

/-- `lookback_ms = DEFAULT_LOOKBACK_MINS * 60 * 1000` (main.py line 84). -/
def lookback_ms : Int := (DEFAULT_LOOKBACK_MINS : Int) * 60 * 1000

/-- The payload of the request for page `p`: the time window is computed from
`current_time_ms`, which the source samples once before the loop (main.py
line 83), so every page of one pull carries the same window. -/
def fsPayloadAt (current_time_ms : Int) (p : Nat) : FSPayload :=
  { from_utc_millis := current_time_ms - lookback_ms,
    to_utc_millis := current_time_ms, page_number := p }

/-- The batch tuple yielded for page `p` (main.py line 163). -/
def fsBatchAt (responses : Nat → FSPageResponse) (p : Nat) : FSBatchYield :=
  let assets := (resultsOf (responses p)).filterMap normalizeAsset
  { assets := assets, is_first_page := p == 0, is_last_page := false,
    count := assets.length, total_count := 0 }

/-- The observable trace of one `pull` invocation: the payload of every page
request issued (in order), the yielded batches tagged with the page number
they were yielded for, the log entries emitted inside the loop, and whether
the max-page warning was hit.  The function is total: neither termination
path raises. -/
structure FSTrace where
  payloads : List FSPayload
  batches : List (Nat × FSBatchYield)
  logs : List FSLog
  warned : Bool
deriving DecidableEq

/-- The `while has_more_data` loop of `ForescoutPlugin.pull` (main.py lines
89-170), starting at page `page_number`: request the page; if the extracted
`results` list is empty, log and break; otherwise normalize, yield the batch,
increment the page number and, if it now exceeds 1000, log the max-page
warning and break. -/
def fsPullGo (current_time_ms : Int) (responses : Nat → FSPageResponse)
    (page_number : Nat) : FSTrace :=
  let payload := fsPayloadAt current_time_ms page_number
  let results := resultsOf (responses page_number)
  if results.isEmpty then
    { payloads := [payload], batches := [],
      logs := .fetchingPage page_number :: fsFmtLogs (responses page_number)
        ++ [.noMoreResults page_number],
      warned := false }
  else
    let batch := fsBatchAt responses page_number
    if _h : page_number + 1 > 1000 then
      { payloads := [payload], batches := [(page_number, batch)],
        logs := .fetchingPage page_number :: fsFmtLogs (responses page_number)
          ++ [.fetchedAssets batch.assets.length page_number, .maxPageWarning],
        warned := true }
    else
      let rest := fsPullGo current_time_ms responses (page_number + 1)
      { payloads := payload :: rest.payloads,
        batches := (page_number, batch) :: rest.batches,
        logs := .fetchingPage page_number :: fsFmtLogs (responses page_number)
          ++ [.fetchedAssets batch.assets.length page_number] ++ rest.logs,
        warned := rest.warned }
termination_by 1001 - page_number
decreasing_by simp_wf; omega

/-- `ForescoutPlugin.pull`: the loop starts at page 0. -/
def fsPull (current_time_ms : Int) (responses : Nat → FSPageResponse) :
    FSTrace :=
  fsPullGo current_time_ms responses 0

/-- Unfolding `fsPullGo` when the requested page has no results: exactly one
request is made and the loop stops. -/
lemma fsPullGo_empty (now : Int) (responses : Nat → FSPageResponse) (p : Nat)
    (h : resultsOf (responses p) = []) :
    fsPullGo now responses p =
      { payloads := [fsPayloadAt now p], batches := [],
        logs := .fetchingPage p :: fsFmtLogs (responses p)
          ++ [.noMoreResults p],
        warned := false } := by
  rw [fsPullGo]
  simp [h]

/-- Unfolding `fsPullGo` on a non-empty page at the ceiling: the batch is
yielded, the warning is logged and the loop stops. -/
lemma fsPullGo_ceiling_step (now : Int) (responses : Nat → FSPageResponse)
    (p : Nat) (h : resultsOf (responses p) ≠ []) (hp : p + 1 > 1000) :
    fsPullGo now responses p =
      { payloads := [fsPayloadAt now p],
        batches := [(p, fsBatchAt responses p)],
        logs := .fetchingPage p :: fsFmtLogs (responses p)
          ++ [.fetchedAssets (fsBatchAt responses p).assets.length p,
              .maxPageWarning],
        warned := true } := by
  rw [fsPullGo]
  simp [List.isEmpty_iff, h, hp]

/-- Unfolding `fsPullGo` on a non-empty page below the ceiling: the batch is
yielded and the loop continues with the next page. -/
lemma fsPullGo_step (now : Int) (responses : Nat → FSPageResponse) (p : Nat)
    (h : resultsOf (responses p) ≠ []) (hp : ¬(p + 1 > 1000)) :
    fsPullGo now responses p =
      { payloads := fsPayloadAt now p ::
          (fsPullGo now responses (p + 1)).payloads,
        batches := (p, fsBatchAt responses p) ::
          (fsPullGo now responses (p + 1)).batches,
        logs := .fetchingPage p :: fsFmtLogs (responses p)
          ++ [.fetchedAssets (fsBatchAt responses p).assets.length p]
          ++ (fsPullGo now responses (p + 1)).logs,
        warned := (fsPullGo now responses (p + 1)).warned } := by
  rw [fsPullGo]
  simp [List.isEmpty_iff, h, hp]

/-- Every page-request payload of a pull carries the fixed time window. -/
lemma fsPullGo_payload_inv (now : Int) (responses : Nat → FSPageResponse) :
    ∀ (n p : Nat), 1001 - p ≤ n →
      ∀ pl ∈ (fsPullGo now responses p).payloads,
        pl.from_utc_millis = now - lookback_ms ∧ pl.to_utc_millis = now := by
  intro n
  induction n with
  | zero =>
    intro p hp pl hpl
    have hc : p + 1 > 1000 := by omega
    by_cases h : resultsOf (responses p) = []
    · rw [fsPullGo_empty now responses p h] at hpl
      simp at hpl
      subst hpl
      simp [fsPayloadAt]
    · rw [fsPullGo_ceiling_step now responses p h hc] at hpl
      simp at hpl
      subst hpl
      simp [fsPayloadAt]
  | succ n ih =>
    intro p hp pl hpl
    by_cases h : resultsOf (responses p) = []
    · rw [fsPullGo_empty now responses p h] at hpl
      simp at hpl
      subst hpl
      simp [fsPayloadAt]
    · by_cases hc : p + 1 > 1000
      · rw [fsPullGo_ceiling_step now responses p h hc] at hpl
        simp at hpl
        subst hpl
        simp [fsPayloadAt]
      · rw [fsPullGo_step now responses p h hc] at hpl
        rcases List.mem_cons.mp hpl with h1 | h1
        · subst h1
          simp [fsPayloadAt]
        · exact ih (p + 1) (by omega) pl h1

/-- Every batch yielded by a pull satisfies the yield-tuple invariants of
main.py line 163. -/
lemma fsPullGo_batch_inv (now : Int) (responses : Nat → FSPageResponse) :
    ∀ (n p : Nat), 1001 - p ≤ n →
      ∀ pb ∈ (fsPullGo now responses p).batches,
        pb.2 = fsBatchAt responses pb.1 := by
  intro n
  induction n with
  | zero =>
    intro p hp pb hpb
    have hc : p + 1 > 1000 := by omega
    by_cases h : resultsOf (responses p) = []
    · rw [fsPullGo_empty now responses p h] at hpb
      simp at hpb
    · rw [fsPullGo_ceiling_step now responses p h hc] at hpb
      simp at hpb
      subst hpb
      rfl
  | succ n ih =>
    intro p hp pb hpb
    by_cases h : resultsOf (responses p) = []
    · rw [fsPullGo_empty now responses p h] at hpb
      simp at hpb
    · by_cases hc : p + 1 > 1000
      · rw [fsPullGo_ceiling_step now responses p h hc] at hpb
        simp at hpb
        subst hpb
        rfl
      · rw [fsPullGo_step now responses p h hc] at hpb
        rcases List.mem_cons.mp hpb with h1 | h1
        · subst h1
          rfl
        · exact ih (p + 1) (by omega) pb h1

/-- Every log entry of a pull is one of the five page-level messages. -/
lemma fsPullGo_log_inv (now : Int) (responses : Nat → FSPageResponse)
    (p : Nat) (e : FSLog) (he : e ∈ (fsPullGo now responses p).logs) :
    (∃ q, e = FSLog.fetchingPage q) ∨ e = FSLog.unexpectedFormat ∨
    (∃ q, e = FSLog.noMoreResults q) ∨
    (∃ k q, e = FSLog.fetchedAssets k q) ∨ e = FSLog.maxPageWarning := by
  cases e with
  | fetchingPage q => exact Or.inl ⟨q, rfl⟩
  | unexpectedFormat => exact Or.inr (Or.inl rfl)
  | noMoreResults q => exact Or.inr (Or.inr (Or.inl ⟨q, rfl⟩))
  | fetchedAssets k q => exact Or.inr (Or.inr (Or.inr (Or.inl ⟨k, q, rfl⟩)))
  | maxPageWarning => exact Or.inr (Or.inr (Or.inr (Or.inr rfl)))

/-- When the first empty page appears after `m` non-empty pages (and within
the ceiling), the loop makes exactly `m + 1` requests and stops without
warning. -/
lemma fsPullGo_count_empty (now : Int) (responses : Nat → FSPageResponse) :
    ∀ (m p : Nat), p + m ≤ 1000 →
      (∀ j, j < m → resultsOf (responses (p + j)) ≠ []) →
      resultsOf (responses (p + m)) = [] →
      (fsPullGo now responses p).payloads.length = m + 1 ∧
      (fsPullGo now responses p).warned = false := by
  intro m
  induction m with
  | zero =>
    intro p hp hne hend
    rw [fsPullGo_empty now responses p (by simpa using hend)]
    simp
  | succ m ih =>
    intro p hp hne hend
    have h0 : resultsOf (responses p) ≠ [] := by
      have := hne 0 (by omega)
      simpa using this
    have hc : ¬(p + 1 > 1000) := by omega
    rw [fsPullGo_step now responses p h0 hc]
    have hne1 : ∀ j, j < m → resultsOf (responses (p + 1 + j)) ≠ [] := by
      intro j hj
      have := hne (j + 1) (by omega)
      have harg : p + (j + 1) = p + 1 + j := by omega
      rwa [harg] at this
    have hend1 : resultsOf (responses (p + 1 + m)) = [] := by
      have harg : p + (m + 1) = p + 1 + m := by omega
      rwa [harg] at hend
    have := ih (p + 1) (by omega) hne1 hend1
    simp [this.1, this.2]

/-- When no page is ever empty, the loop starting at page `p ≤ 1000` makes
exactly `1001 - p` requests, warns, and logs the max-page warning. -/
lemma fsPullGo_count_ceiling (now : Int) (responses : Nat → FSPageResponse)
    (hne : ∀ j, resultsOf (responses j) ≠ []) :
    ∀ (n p : Nat), p ≤ 1000 → 1000 - p = n →
      (fsPullGo now responses p).payloads.length = 1001 - p ∧
      (fsPullGo now responses p).warned = true ∧
      FSLog.maxPageWarning ∈ (fsPullGo now responses p).logs := by
  intro n
  induction n with
  | zero =>
    intro p hp hn
    have hp' : p = 1000 := by omega
    subst hp'
    rw [fsPullGo_ceiling_step now responses 1000 (hne 1000) (by omega)]
    simp
  | succ n ih =>
    intro p hp hn
    have hc : ¬(p + 1 > 1000) := by omega
    rw [fsPullGo_step now responses p (hne p) hc]
    have := ih (p + 1) (by omega) (by omega)
    refine ⟨?_, this.2.1, ?_⟩
    · simp [this.1]
      omega
    · simp [this.2.2]

/-- `csIdBatches` on the empty ID list is empty. -/
lemma csIdBatches_nil : csIdBatches ([] : List α) = [] := by
  simp [csIdBatches]

/-- One step of the batching: a non-empty ID list contributes its first 100
IDs as the first batch, followed by the batches of the rest. -/
lemma csIdBatches_cons (ids : List α) (h : ids ≠ []) :
    csIdBatches ids = ids.take 100 :: csIdBatches (ids.drop 100) := by
  have hlen : 1 ≤ ids.length := List.length_pos.mpr h
  have h1 : (ids.length + 99) / 100 = ((ids.drop 100).length + 99) / 100 + 1 := by
    simp only [List.length_drop]
    omega
  unfold csIdBatches
  rw [h1, List.range'_succ, List.map_cons, List.drop_zero]
  congr 1
  have h2 : List.range' (0 + 100) (((ids.drop 100).length + 99) / 100) 100 =
      (List.range' 0 (((ids.drop 100).length + 99) / 100) 100).map
        (fun i => 100 + i) := by
    rw [List.map_add_range']
  rw [h2, List.map_map]
  apply List.map_congr_left
  intro i _
  simp only [Function.comp_apply]
  rw [List.drop_drop]

/-- Concatenating the batches gives back the original ID list: the batches
are consecutive and in order. -/
lemma csIdBatches_flatten (ids : List α) :
    (csIdBatches ids).flatten = ids := by
  by_cases h : ids = []
  · subst h
    simp [csIdBatches_nil]
  · rw [csIdBatches_cons ids h, List.flatten_cons,
        csIdBatches_flatten (ids.drop 100), List.take_append_drop]
termination_by ids.length
decreasing_by
  simp_wf
  have : 0 < ids.length := List.length_pos.mpr h
  omega

/-- There are exactly `ceil(n / 100)` batches. -/
lemma csIdBatches_length (ids : List α) :
    (csIdBatches ids).length = (ids.length + 99) / 100 := by
  simp [csIdBatches]

/-- Every batch holds at most 100 IDs. -/
lemma csIdBatches_size (ids : List α) :
    ∀ b ∈ csIdBatches ids, b.length ≤ 100 := by
  intro b hb
  obtain ⟨i, _, rfl⟩ := List.mem_map.mp hb
  simp [List.length_take]

/-! Claim theorems. -/

/-- Response sequence for the C1 counterexample: three consecutive 429
responses, then a 200 with a JSON body available from the fourth request
onward. -/
def c1Responses : Nat → FSResponse Nat := fun n =>
  if n < 3 then { status := 429, json := none }
  else { status := 200, json := some 7 }

/-- C1 counterexample: the claim says three consecutive 429 responses
followed by a 200 on the final allowed attempt return the 200 body.  On the
code, `for retry in range(MAX_RETRIES)` with `MAX_RETRIES = 3` makes at most
3 requests in total, and the third consecutive 429 raises `HTTPError`
(rate-limit exhausted) — the waiting 200 is never requested, and no outcome
returns its body.  Only two backoff sleeps (1 and 2 seconds) ever happen. -/
theorem C1_counterexample :
    fsApiHelper c1Responses true = (FSOutcome.httpError 429, [1, 2]) := by
  decide

/-- C1 (amended): through the Forescout wrapper a 429 is retried with
exponential backoff `RETRY_BACKOFF * 2 ^ attempt` up to 3 total attempts
(2 retries): two consecutive 429s followed by a 200 on the third attempt
return the 200 body; three consecutive 429s fail with the rate-limit
`HTTPError`.  The Crowdstrike wrapper performs no 429 retry at all: a 429
fails immediately with an API error. -/
theorem C1_rate_limit_retry :
    (∀ (β : Type) (responses : Nat → FSResponse β) (j : β),
      (responses 0).status = 429 → (responses 1).status = 429 →
      ((responses 2).status = 200 ∨ (responses 2).status = 201) →
      (responses 2).json = some j →
      fsApiHelper responses true =
        (FSOutcome.okJson j, [RETRY_BACKOFF * 2 ^ 0, RETRY_BACKOFF * 2 ^ 1]))
    ∧ (∀ (β : Type) (responses : Nat → FSResponse β),
      (responses 0).status = 429 → (responses 1).status = 429 →
      (responses 2).status = 429 →
      fsApiHelper responses true =
        (FSOutcome.httpError 429,
         [RETRY_BACKOFF * 2 ^ 0, RETRY_BACKOFF * 2 ^ 1]))
    ∧ (∀ (β : Type) (r : CSResponse β), r.status = 429 →
      csApiHelper r = .error (.apiError 429 r.text)) := by
  refine ⟨?_, ?_, ?_⟩
  · intro β responses j h0 h1 h2 hj
    rw [fsApiHelper, show List.range MAX_RETRIES = [0, 1, 2] from rfl]
    rcases h2 with h2 | h2 <;>
      simp [fsApiHelperGo, h0, h1, h2, hj, MAX_RETRIES]
  · intro β responses h0 h1 h2
    rw [fsApiHelper, show List.range MAX_RETRIES = [0, 1, 2] from rfl]
    simp [fsApiHelperGo, h0, h1, h2, MAX_RETRIES]
  · intro β r h
    simp [csApiHelper, h]

/-- Response sequence for the C1 witness: two 429 responses, then a 200
carrying JSON body `7` on the third attempt. -/
def c1WitnessResponses : Nat → FSResponse Nat := fun n =>
  if n < 2 then { status := 429, json := none }
  else { status := 200, json := some 7 }

/-- C1 witness: concrete instantiation of the amended retry behavior. -/
theorem C1_witness :
    fsApiHelper c1WitnessResponses true =
      (FSOutcome.okJson 7, [RETRY_BACKOFF * 2 ^ 0, RETRY_BACKOFF * 2 ^ 1]) :=
  C1_rate_limit_retry.1 Nat c1WitnessResponses 7 rfl rfl (Or.inl rfl) rfl

/-- C7 counterexample: a 200 token response whose valid JSON body lacks the
`access_token` field.  The claim says the call must fail with an
authentication-failure error; the code instead returns the missing token
(`dict.get` yields `None`) as a successful result. -/
theorem C7_counterexample :
    get_auth_token { status := 200, json := some none, text := "" } =
      Except.ok none := by
  rfl

/-- C7 (amended): `get_auth_token` fails with an authentication error when
the token endpoint's response is non-2xx, and when its body is not valid
JSON; but on a 2xx response with a valid JSON body it returns the
`access_token` field as-is — a body lacking the field yields a missing token
returned as success, detected only by callers. -/
theorem C7_auth_token :
    (∀ r : CSTokenResponse, ¬(r.status = 200 ∨ r.status = 201) →
      get_auth_token r = .error (.authFailed r.text))
    ∧ (∀ r : CSTokenResponse, (r.status = 200 ∨ r.status = 201) →
      r.json = none → get_auth_token r = .error (.jsonError r.text))
    ∧ (∀ (r : CSTokenResponse) (tok : Option String),
      (r.status = 200 ∨ r.status = 201) → r.json = some tok →
      get_auth_token r = .ok tok) := by
  refine ⟨?_, ?_, ?_⟩
  · intro r h
    simp [get_auth_token, h]
  · intro r h hj
    rcases h with h | h <;> simp [get_auth_token, h, hj]
  · intro r tok h hj
    rcases h with h | h <;> simp [get_auth_token, h, hj]

/-- C7 witness: a 401 rejection is reported as an authentication failure. -/
theorem C7_witness :
    get_auth_token { status := 401, json := some none, text := "denied" } =
      Except.error (CSAuthErr.authFailed "denied") :=
  C7_auth_token.1 { status := 401, json := some none, text := "denied" }
    (by decide)

/-- C8 counterexample: a 200 response whose body is not valid JSON, sent
through the Crowdstrike wrapper.  The claim says the raw response envelope is
returned instead of raising; the Crowdstrike wrapper has no such fallback —
`response.json()` raises and the wrapper converts it into a raised
`CrowdstrikePluginException`. -/
theorem C8_counterexample :
    csApiHelper { status := 200, json := (none : Option Nat),
                  text := "not json" } =
      Except.error (CSErr.requestError "not json") := by
  rfl

/-- C8 (amended): on a 200/201 response the Forescout wrapper returns the
parsed JSON body, and returns the raw response envelope when the body is not
valid JSON; the Crowdstrike wrapper returns the parsed JSON body but raises a
plugin exception when the body is not valid JSON. -/
theorem C8_success_body :
    (∀ (β : Type) (responses : Nat → FSResponse β) (j : β),
      ((responses 0).status = 200 ∨ (responses 0).status = 201) →
      (responses 0).json = some j →
      fsApiHelper responses true = (FSOutcome.okJson j, []))
    ∧ (∀ (β : Type) (responses : Nat → FSResponse β),
      ((responses 0).status = 200 ∨ (responses 0).status = 201) →
      (responses 0).json = none →
      fsApiHelper responses true = (FSOutcome.okRaw (responses 0), []))
    ∧ (∀ (β : Type) (r : CSResponse β) (j : β),
      (r.status = 200 ∨ r.status = 201) → r.json = some j →
      csApiHelper r = .ok j)
    ∧ (∀ (β : Type) (r : CSResponse β),
      (r.status = 200 ∨ r.status = 201) → r.json = none →
      csApiHelper r = .error (.requestError r.text)) := by
  refine ⟨?_, ?_, ?_, ?_⟩
  · intro β responses j h hj
    rw [fsApiHelper, show List.range MAX_RETRIES = [0, 1, 2] from rfl]
    rcases h with h | h <;> simp [fsApiHelperGo, h, hj]
  · intro β responses h hj
    rw [fsApiHelper, show List.range MAX_RETRIES = [0, 1, 2] from rfl]
    rcases h with h | h <;> simp [fsApiHelperGo, h, hj]
  · intro β r j h hj
    rcases h with h | h <;> simp [csApiHelper, h, hj]
  · intro β r h hj
    rcases h with h | h <;> simp [csApiHelper, h, hj]

/-- Response sequence for the C8 witness: an immediate 200 with JSON body. -/
def c8WitnessResponses : Nat → FSResponse Nat := fun _ =>
  { status := 200, json := some 3 }

/-- C8 witness: concrete instantiation of the success path. -/
theorem C8_witness :
    fsApiHelper c8WitnessResponses true = (FSOutcome.okJson 3, []) :=
  C8_success_body.1 Nat c8WitnessResponses 3 (Or.inl rfl) rfl

/-- C2 counterexample: a Forescout configuration passing the presence checks.
The claim says that when presence checks pass a live authentication probe is
performed and its failure reported; `ForescoutPlugin.validate` performs no
probe at all — it is a pure function of the two fields and reports success
for any non-blank configuration, whatever the authentication state. -/
theorem C2_counterexample :
    forescoutValidate
        { base_url := "https://forescout.example.com", api_token := "token" } =
      { success := true, message := "Validation successful." } := by
  rfl

/-- C2 (amended): Crowdstrike's `validate` checks presence of `base_url`,
`client_id` and `client_secret` before any network call and returns a failure
result without probing when one is blank; when presence passes it performs
the authentication probe, reports a failed probe (exception, missing or empty
token) as a `success := false` result, and converts any exception raised
during the probe into a result instead of propagating it.  Forescout's
`validate` performs only the presence checks on `base_url` and `api_token`
and returns success without any authentication probe. -/
theorem C2_validate_behavior :
    (∀ (cfg : CSConfig) (probe : Except String (Option String)),
      csMissingFields cfg = true →
      crowdstrikeValidate cfg probe =
        ({ success := false, message := "Missing required fields." }, false))
    ∧ (∀ (cfg : CSConfig) (probe : Except String (Option String)),
      csMissingFields cfg = false → (crowdstrikeValidate cfg probe).2 = true)
    ∧ (∀ (cfg : CSConfig) (e : String), csMissingFields cfg = false →
      crowdstrikeValidate cfg (.error e) =
        ({ success := false, message := e }, true))
    ∧ (∀ cfg : CSConfig, csMissingFields cfg = false →
      crowdstrikeValidate cfg (.ok none) =
        ({ success := false, message := "Validation Failed." }, true))
    ∧ (∀ (cfg : CSConfig) (t : String), csMissingFields cfg = false →
      t.isEmpty = false →
      crowdstrikeValidate cfg (.ok (some t)) =
        ({ success := true, message := "Validation Successful." }, true))
    ∧ (∀ (cfg : CSConfig) (t : String), csMissingFields cfg = false →
      t.isEmpty = true →
      crowdstrikeValidate cfg (.ok (some t)) =
        ({ success := false, message := "Validation Failed." }, true))
    ∧ (∀ c : FSConfig, (pyStrip c.base_url).isEmpty = true →
      forescoutValidate c =
        { success := false, message := "Base URL is required." })
    ∧ (∀ c : FSConfig, (pyStrip c.base_url).isEmpty = false →
      (pyStrip c.api_token).isEmpty = true →
      forescoutValidate c =
        { success := false, message := "API Token is required." })
    ∧ (∀ c : FSConfig, (pyStrip c.base_url).isEmpty = false →
      (pyStrip c.api_token).isEmpty = false →
      forescoutValidate c =
        { success := true, message := "Validation successful." }) := by
  refine ⟨?_, ?_, ?_, ?_, ?_, ?_, ?_, ?_, ?_⟩
  · intro cfg probe h
    simp [crowdstrikeValidate, h]
  · intro cfg probe h
    rcases probe with e | tok
    · simp [crowdstrikeValidate, h]
    · rcases tok with _ | t
      · simp [crowdstrikeValidate, h]
      · by_cases ht : t.isEmpty <;> simp [crowdstrikeValidate, h, ht]
  · intro cfg e h
    simp [crowdstrikeValidate, h]
  · intro cfg h
    simp [crowdstrikeValidate, h]
  · intro cfg t h ht
    simp [crowdstrikeValidate, h, ht]
  · intro cfg t h ht
    simp [crowdstrikeValidate, h, ht]
  · intro c h
    simp [forescoutValidate, h]
  · intro c h ht
    simp [forescoutValidate, h, ht]
  · intro c h ht
    simp [forescoutValidate, h, ht]

/-- Crowdstrike configuration used by the C2 witness. -/
def c2Config : CSConfig :=
  { base_url := "https://api.crowdstrike.com/", client_id := "cid",
    client_secret := "secret" }

/-- C2 witness: an exception raised during the probe is caught and converted
into a failure result. -/
theorem C2_witness :
    crowdstrikeValidate c2Config (.error "connection reset") =
      ({ success := false, message := "connection reset" }, true) :=
  C2_validate_behavior.2.2.1 c2Config "connection reset" (by decide)

/-- C4: the indicator pull chunks the full ID list into consecutive batches
of at most 100 IDs, issues exactly `ceil(n / 100)` detail calls (none for an
empty ID list), each call carrying its batch as repeated `ids` query
parameters in order; 250 IDs give exactly 3 batches of sizes 100, 100 and
50. -/
theorem C4_id_batching :
    (∀ ioc_ids : List String,
      (csDetailCalls ioc_ids).length = (ioc_ids.length + 99) / 100 ∧
      (csIdBatches ioc_ids).flatten = ioc_ids ∧
      (∀ b ∈ csIdBatches ioc_ids, b.length ≤ 100) ∧
      csDetailCalls ioc_ids =
        (csIdBatches ioc_ids).map (fun b => b.map (fun x => ("ids", x))))
    ∧ (csIdBatches (List.replicate 250 "id")).map List.length =
        [100, 100, 50] := by
  constructor
  · intro ioc_ids
    refine ⟨?_, csIdBatches_flatten ioc_ids, csIdBatches_size ioc_ids, ?_⟩
    · by_cases h : ioc_ids.isEmpty
      · rw [List.isEmpty_iff] at h
        subst h
        simp [csDetailCalls]
      · simp [csDetailCalls, h, csIdBatches_length]
    · by_cases h : ioc_ids.isEmpty
      · rw [List.isEmpty_iff] at h
        subst h
        simp [csDetailCalls, csIdBatches_nil]
      · simp [csDetailCalls, h, csDetailParams]
  · set_option maxRecDepth 4000 in decide

/-- C4 witness: the batches of a concrete 250-ID list concatenate back to
the list. -/
theorem C4_witness :
    (csIdBatches (List.replicate 250 "id")).flatten =
      List.replicate 250 "id" :=
  (C4_id_batching.1 (List.replicate 250 "id")).2.1

/-- A `filterMap` over a list on which the function always produces a value
keeps the length. -/
lemma length_filterMap_of_isSome (f : α → Option γ) :
    ∀ l : List α, (∀ x ∈ l, (f x).isSome = true) →
      (l.filterMap f).length = l.length := by
  intro l
  induction l with
  | nil => intro _; rfl
  | cons a l ih =>
    intro h
    obtain ⟨b, hb⟩ := Option.isSome_iff_exists.mp (h a (List.mem_cons_self a l))
    simp [List.filterMap_cons, hb,
          ih (fun x hx => h x (List.mem_cons_of_mem a hx))]

/-- C5: the normalizer classifies the raw `type` code by the fixed lookup
sha256→SHA256, md5→MD5, domain→URL, ipv4→URL, ipv6→URL; any record whose
`type` is outside that set or whose `value` is missing or empty emits zero
records without throwing (the normalizer is a total function into `Option`),
and a page containing exactly one such record emits exactly one record fewer
than the raw count. -/
theorem C5_indicator_normalization :
    (classifyIndicatorType (some "sha256") = some IndicatorType.SHA256 ∧
     classifyIndicatorType (some "md5") = some IndicatorType.MD5 ∧
     classifyIndicatorType (some "domain") = some IndicatorType.URL ∧
     classifyIndicatorType (some "ipv4") = some IndicatorType.URL ∧
     classifyIndicatorType (some "ipv6") = some IndicatorType.URL)
    ∧ (∀ s : String,
      s ∉ (["sha256", "md5", "domain", "ipv4", "ipv6"] : List String) →
      classifyIndicatorType (some s) = none)
    ∧ (∀ item : RawIndicator,
      classifyIndicatorType item.type = none ∨ pyTruthy item.value = false →
      normalizeIndicator item = none)
    ∧ (∀ (pre post : List RawIndicator) (bad : RawIndicator),
      (∀ g ∈ pre, (normalizeIndicator g).isSome = true) →
      (∀ g ∈ post, (normalizeIndicator g).isSome = true) →
      normalizeIndicator bad = none →
      (csNormalizePage (pre ++ bad :: post)).length + 1 =
        (pre ++ bad :: post).length) := by
  refine ⟨⟨rfl, rfl, rfl, rfl, rfl⟩, ?_, ?_, ?_⟩
  · intro s hs
    simp only [classifyIndicatorType]
    split_ifs with h1 h2 h3 h4 h5
    · subst h1; simp at hs
    · subst h2; simp at hs
    · subst h3; simp at hs
    · subst h4; simp at hs
    · subst h5; simp at hs
    · rfl
  · intro item h
    rcases h with h | h
    · cases hv : item.value <;> simp [normalizeIndicator, h, hv]
    · cases hv : item.value with
      | none => cases hc : classifyIndicatorType item.type <;>
          simp [normalizeIndicator, hv, hc]
      | some v =>
        have hemp : v.isEmpty = true := by
          simpa [pyTruthy, hv] using h
        cases hc : classifyIndicatorType item.type <;>
          simp [normalizeIndicator, hv, hc, hemp]
  · intro pre post bad hpre hpost hbad
    simp [csNormalizePage, List.filterMap_append, List.filterMap_cons, hbad,
          length_filterMap_of_isSome normalizeIndicator pre hpre,
          length_filterMap_of_isSome normalizeIndicator post hpost]
    omega

/-- A raw indicator that normalizes successfully. -/
def c5Good : RawIndicator :=
  { value := some "deadbeef", type := some "sha256", description := none,
    created_on := none, modified_on := none }

/-- A raw indicator with an unrecognized `type` code. -/
def c5Bad : RawIndicator :=
  { value := some "10.1.1.1", type := some "unknown_kind", description := none,
    created_on := none, modified_on := none }

/-- C5 witness: a two-record page with one unrecognized type emits exactly
one record. -/
theorem C5_witness :
    (csNormalizePage [c5Good, c5Bad]).length + 1 =
      ([c5Good, c5Bad] : List RawIndicator).length :=
  C5_indicator_normalization.2.2.2 [c5Good] [] c5Bad
    (by intro g hg; simp at hg; subst hg; decide)
    (by intro g hg; simp at hg)
    (by decide)

/-- A raw asset record with no IP, MAC or hostname data at all. -/
def c6BadRecord : RawAsset :=
  { ip_addresses := [], mac_addresses := [], rem_category := none,
    rem_vendor := none, rem_os := none, rem_function := none,
    risk_score := none }

/-- Page responses for the C6 counterexample: page 0 holds exactly the one
record lacking ip/mac/hostname, later pages are empty. -/
def c6Responses : Nat → FSPageResponse := fun p =>
  if p = 0 then .dict [c6BadRecord] else .dict []

/-- C6 counterexample: the record lacking ip, mac and hostname is dropped
(no Asset emitted), but — against the claim — the drop is not logged with
the offending raw record: the complete log trace of the pull consists of the
four page-level entries below, none of which carries any raw record (no
constructor of `FSLog`, the exact set of logger calls in the loop, takes a
record). -/
theorem C6_counterexample :
    normalizeAsset c6BadRecord = none ∧
    (fsPull 0 c6Responses).batches =
      [(0, { assets := [], is_first_page := true, is_last_page := false,
             count := 0, total_count := 0 })] ∧
    (fsPull 0 c6Responses).logs =
      [FSLog.fetchingPage 0, FSLog.fetchedAssets 0 0,
       FSLog.fetchingPage 1, FSLog.noMoreResults 1] := by
  refine ⟨rfl, ?_, ?_⟩ <;>
    · rw [fsPull, fsPullGo_step 0 c6Responses 0 (by decide) (by norm_num),
          fsPullGo_empty 0 c6Responses 1 rfl]
      rfl

/-- C6 (amended): a raw asset record lacking a non-empty ip, macAddress and
hostname produces no Asset; every emitted Asset has at least one of ip,
macAddress or hostname non-empty; but dropped records are dropped silently —
every log entry the pull emits is one of the five page-level messages, none
of which carries a raw record. -/
theorem C6_asset_invariant :
    (∀ item : RawAsset, (∀ s ∈ item.ip_addresses, s.isEmpty = true) →
      (∀ s ∈ item.mac_addresses, s.isEmpty = true) →
      normalizeAsset item = none)
    ∧ (∀ (item : RawAsset) (a : Asset), normalizeAsset item = some a →
      pyTruthy a.ip = true ∨ pyTruthy a.mac_address = true ∨
        pyTruthy a.hostname = true)
    ∧ (∀ (now : Int) (responses : Nat → FSPageResponse) (e : FSLog),
      e ∈ (fsPull now responses).logs →
      (∃ q, e = FSLog.fetchingPage q) ∨ e = FSLog.unexpectedFormat ∨
      (∃ q, e = FSLog.noMoreResults q) ∨
      (∃ k q, e = FSLog.fetchedAssets k q) ∨ e = FSLog.maxPageWarning) := by
  refine ⟨?_, ?_, ?_⟩
  · intro item h1 h2
    have hip : pyTruthy item.ip_addresses.head? = false := by
      cases hx : item.ip_addresses with
      | nil => simp [pyTruthy]
      | cons a l =>
        have := h1 a (by rw [hx]; exact List.mem_cons_self a l)
        simp [pyTruthy, this]
    have hmac : pyTruthy item.mac_addresses.head? = false := by
      cases hx : item.mac_addresses with
      | nil => simp [pyTruthy]
      | cons a l =>
        have := h2 a (by rw [hx]; exact List.mem_cons_self a l)
        simp [pyTruthy, this]
    simp [normalizeAsset, hip, hmac]
  · intro item a h
    by_cases hcond : (pyTruthy item.ip_addresses.head?
        || pyTruthy item.mac_addresses.head?) = true
    · simp only [normalizeAsset, hcond, if_true, Option.some_inj] at h
      rcases Bool.or_eq_true _ _ |>.mp hcond with hip | hmac
      · left
        rw [← h]
        exact hip
      · right; left
        rw [← h]
        exact hmac
    · simp [normalizeAsset, Bool.not_eq_true _ |>.mp hcond] at h
  · intro now responses e he
    exact fsPullGo_log_inv now responses 0 e he

/-- C6 witness: the amended invariant applied to the concrete record lacking
all three identifying fields. -/
theorem C6_witness : normalizeAsset c6BadRecord = none :=
  C6_asset_invariant.1 c6BadRecord
    (by intro s hs; simp [c6BadRecord] at hs)
    (by intro s hs; simp [c6BadRecord] at hs)

/-- Page responses that are never empty: every page holds one valid asset
record. -/
def fsNonemptyResponses : Nat → FSPageResponse := fun _ =>
  .dict [{ ip_addresses := ["10.0.0.2"], mac_addresses := [],
           rem_category := none, rem_vendor := none, rem_os := none,
           rem_function := none, risk_score := none }]

/-- Page responses that are empty from the very first page. -/
def fsEmptyResponses : Nat → FSPageResponse := fun _ => .dict []

/-- C3 counterexample: against a provider whose pages are never empty, the
loop issues 1001 page requests (pages 0 through 1000) before stopping — the
ceiling check `page_number > 1000` runs only after the increment, so the
claimed hard ceiling of 1000 pages is exceeded. -/
theorem C3_counterexample :
    1000 < (fsPull 0 fsNonemptyResponses).payloads.length := by
  have h := fsPullGo_count_ceiling 0 fsNonemptyResponses
    (fun j => by simp [fsNonemptyResponses, resultsOf]) 1000 0 (by omega) rfl
  have h1 : (fsPull 0 fsNonemptyResponses).payloads.length = 1001 - 0 := h.1
  omega

/-- C3 (amended): the offset-pagination loop terminates exactly when a page
returns zero results — with no further request made after that page and no
warning — or when the page number exceeds 1000, i.e. after 1001 pages
(numbers 0 through 1000) have been fetched; reaching the ceiling logs the
max-page warning and raises no fault (the pull trace is an ordinary return
value on both paths). -/
theorem C3_pagination_termination :
    (∀ (now : Int) (responses : Nat → FSPageResponse) (k : Nat), k ≤ 1000 →
      (∀ j, j < k → resultsOf (responses j) ≠ []) →
      resultsOf (responses k) = [] →
      (fsPull now responses).payloads.length = k + 1 ∧
      (fsPull now responses).warned = false)
    ∧ (∀ (now : Int) (responses : Nat → FSPageResponse),
      (∀ j, resultsOf (responses j) ≠ []) →
      (fsPull now responses).payloads.length = 1001 ∧
      (fsPull now responses).warned = true ∧
      FSLog.maxPageWarning ∈ (fsPull now responses).logs) := by
  constructor
  · intro now responses k hk hne hend
    exact fsPullGo_count_empty now responses k 0 (by omega)
      (fun j hj => by simpa using hne j hj) (by simpa using hend)
  · intro now responses hne
    have h := fsPullGo_count_ceiling now responses hne 1000 0 (by omega) rfl
    exact ⟨h.1, h.2.1, h.2.2⟩

/-- C3 witness: a provider that is empty from page 0 gets exactly one page
request and no warning. -/
theorem C3_witness :
    (fsPull 0 fsEmptyResponses).payloads.length = 0 + 1 ∧
    (fsPull 0 fsEmptyResponses).warned = false :=
  C3_pagination_termination.1 0 fsEmptyResponses 0 (by omega)
    (fun j hj => absurd hj (by omega)) rfl

/-- C9: every page request issued during one pull carries the identical time
window, computed once from the invocation-time clock sample: the lower bound
is the invocation time minus the 60-minute default lookback in milliseconds
and the upper bound is the invocation time itself. -/
theorem C9_fixed_time_window :
    ∀ (current_time_ms : Int) (responses : Nat → FSPageResponse)
      (pl : FSPayload), pl ∈ (fsPull current_time_ms responses).payloads →
      pl.from_utc_millis =
        current_time_ms - (DEFAULT_LOOKBACK_MINS : Int) * 60 * 1000 ∧
      pl.to_utc_millis = current_time_ms := by
  intro now responses pl hpl
  have h := fsPullGo_payload_inv now responses 1001 0 (by omega) pl hpl
  simpa [lookback_ms] using h

/-- C9 witness: the single request of an immediately empty pull carries the
window ending at the invocation time 123456. -/
theorem C9_witness :
    (fsPayloadAt 123456 0).from_utc_millis =
      123456 - (DEFAULT_LOOKBACK_MINS : Int) * 60 * 1000 ∧
    (fsPayloadAt 123456 0).to_utc_millis = 123456 :=
  C9_fixed_time_window 123456 fsEmptyResponses (fsPayloadAt 123456 0)
    (by rw [fsPull, fsPullGo_empty 123456 fsEmptyResponses 0 rfl]
        exact List.mem_singleton.mpr rfl)

/-- C10: in every batch yielded by the asset pull, the first-page flag is
true exactly for page number 0, the last-page flag is always false, the
count equals the number of assets in the batch, and the total count is
always 0. -/
theorem C10_batch_flags :
    ∀ (current_time_ms : Int) (responses : Nat → FSPageResponse)
      (pb : Nat × FSBatchYield),
      pb ∈ (fsPull current_time_ms responses).batches →
      (pb.2.is_first_page = true ↔ pb.1 = 0) ∧
      pb.2.is_last_page = false ∧
      pb.2.count = pb.2.assets.length ∧
      pb.2.total_count = 0 := by
  intro now responses pb hpb
  have h := fsPullGo_batch_inv now responses 1001 0 (by omega) pb hpb
  rw [h]
  refine ⟨?_, rfl, rfl, rfl⟩
  simp [fsBatchAt]

/-- Page responses for the C10 witness: one non-empty page, then empty. -/
def c10Responses : Nat → FSPageResponse := fun p =>
  if p = 0 then
    .dict [{ ip_addresses := ["10.0.0.1"], mac_addresses := [],
             rem_category := none, rem_vendor := none, rem_os := none,
             rem_function := none, risk_score := none }]
  else .dict []

/-- C10 witness: the invariants instantiated on the single batch of a
concrete one-page pull. -/
theorem C10_witness :
    ((fsBatchAt c10Responses 0).is_first_page = true ↔ (0 : Nat) = 0) ∧
    (fsBatchAt c10Responses 0).is_last_page = false ∧
    (fsBatchAt c10Responses 0).count =
      (fsBatchAt c10Responses 0).assets.length ∧
    (fsBatchAt c10Responses 0).total_count = 0 :=
  C10_batch_flags 99 c10Responses (0, fsBatchAt c10Responses 0)
    (by rw [fsPull, fsPullGo_step 99 c10Responses 0 (by decide) (by norm_num),
            fsPullGo_empty 99 c10Responses 1 rfl]
        exact List.mem_cons_self _ _)
